import Mathlib

/-!
Verification of the fault-tolerant streaming coordinator
(src/fault_tolerant_coordinator.py).

The development shallowly embeds the coordinator:

* pure data (WorkItem, WorkerState, Checkpoint, the worker status enum)
  becomes Lean structures and inductives;
* the retry helper fetch_json_with_retry becomes a recursive function over
  a sequence of attempt outcomes, returning the result together with the
  total time slept;
* the concurrent system (collector, worker tasks, heartbeat monitor,
  coordinator flags) becomes a labelled transition system.  Under asyncio,
  code between two awaits runs atomically, so each transition corresponds
  to one such segment of worker_process / monitor_workers; interleaving of
  tasks is the nondeterministic choice of the next action.

Time is modelled by a Nat clock (the event-loop clock), JSON payloads by
an abstract Nat, and the dict produced by dataclasses.asdict by an
association list of typed values, so that checkpoint serialisation and
recovery (WorkItem(**item_data)) is a genuine round trip.
-/

namespace FaultTolerant

/-- A single post to be processed (dataclass WorkItem). -/
structure WorkItem where
  post_id : String
  permalink : String
  created_utc : Int
  num_comments : Nat
  batch_id : Nat
  item_index : Nat
  deriving DecidableEq, Repr

/-- A JSON-serialisable field value, as stored by dataclasses.asdict. -/
inductive JVal where
  | jstr (v : String)
  | jint (v : Int)
  | jnat (v : Nat)
  deriving DecidableEq, Repr

/-- dataclasses.asdict applied to a WorkItem: the field-name/value dict
stored inside a checkpoint file. -/
def asdict (it : WorkItem) : List (String × JVal) :=
  [("post_id", .jstr it.post_id),
   ("permalink", .jstr it.permalink),
   ("created_utc", .jint it.created_utc),
   ("num_comments", .jnat it.num_comments),
   ("batch_id", .jnat it.batch_id),
   ("item_index", .jnat it.item_index)]

/-- Look a string field up in a dict. -/
def getStr (d : List (String × JVal)) (k : String) : Option String :=
  match d.lookup k with
  | some (.jstr v) => some v
  | _ => none

/-- Look an integer field up in a dict. -/
def getInt (d : List (String × JVal)) (k : String) : Option Int :=
  match d.lookup k with
  | some (.jint v) => some v
  | _ => none

/-- Look a natural-number field up in a dict. -/
def getNat (d : List (String × JVal)) (k : String) : Option Nat :=
  match d.lookup k with
  | some (.jnat v) => some v
  | _ => none

/-- Rebuild a WorkItem from a stored dict, as WorkItem(**item_data) does
in load_checkpoint.  A missing or ill-typed field makes the Python call
raise (the surrounding except returns None), modelled by none. -/
def workItemOfDict (d : List (String × JVal)) : Option WorkItem := do
  let post_id ← getStr d "post_id"
  let permalink ← getStr d "permalink"
  let created_utc ← getInt d "created_utc"
  let num_comments ← getNat d "num_comments"
  let batch_id ← getNat d "batch_id"
  let item_index ← getNat d "item_index"
  some { post_id := post_id, permalink := permalink, created_utc := created_utc,
         num_comments := num_comments, batch_id := batch_id, item_index := item_index }

/-- Serialising a WorkItem to a dict and rebuilding it is the identity:
checkpoint recovery reconstructs the item field for field. -/
theorem workItemOfDict_asdict (it : WorkItem) : workItemOfDict (asdict it) = some it := by
  rfl

/-! ## The retry helper fetch_json_with_retry

One call to client.get either returns a 2xx response with a JSON body,
returns a 429 response, returns a non-2xx non-429 response (so that
raise_for_status raises httpx.HTTPStatusError), or raises some other
exception (network error and the like).  Note that in the source a 429
response is intercepted by the status_code test before raise_for_status,
so the HTTPStatusError handler's own 429 branch is unreachable there.
The function returns the JSON payload (abstracted to a Nat) or None,
together with the total number of seconds slept. -/
inductive Attempt where
  | success (data : Nat)
  | rateLimited
  | badStatus (code : Nat)
  | getExc
  deriving DecidableEq, Repr

/-- The base of the exponential backoff (backoff = 2.0 in the source). -/
def backoff : Nat := 2

/-- The body of the for-loop of fetch_json_with_retry, from iteration i on;
fuel counts the remaining iterations (retries + 1 - i at every call). -/
def fetchFrom (attempts : Nat → Attempt) (retries : Nat) : Nat → Nat → Option Nat × Nat
  | 0, _ => (none, 0)
  | fuel + 1, i =>
    match attempts i with
    | .success d => (some d, 0)
    | .rateLimited =>
      if i < retries then
        let r := fetchFrom attempts retries fuel (i + 1)
        (r.1, backoff * 2 ^ i + r.2)
      else (none, 0)
    | .badStatus _ => (none, 0)
    | .getExc =>
      if i < retries then
        let r := fetchFrom attempts retries fuel (i + 1)
        (r.1, 1 + r.2)
      else (none, 0)

/-- fetch_json_with_retry: run the loop for i in range(retries + 1),
starting at i = 0.  First component: the returned value (none is the
failure indicator).  Second component: total seconds slept. -/
def fetch_json_with_retry (attempts : Nat → Attempt) (retries : Nat) : Option Nat × Nat :=
  fetchFrom attempts retries (retries + 1) 0

/-- Helper for the all-429 case: from iteration i with the right fuel,
the loop gives up with total sleep equal to the sum of the remaining
backoff terms. -/
theorem fetchFrom_all_rate_limited (attempts : Nat → Attempt) (retries : Nat)
    (h : ∀ j, attempts j = .rateLimited) :
    ∀ fuel i, i + fuel = retries + 1 →
      fetchFrom attempts retries fuel i =
        (none, ∑ j in Finset.Ico i retries, backoff * 2 ^ j) := by
  intro fuel
  induction fuel with
  | zero =>
    intro i hi
    have : Finset.Ico i retries = ∅ := Finset.Ico_eq_empty (by omega)
    simp [fetchFrom, this]
  | succ fuel ih =>
    intro i hi
    have hle : i ≤ retries := by omega
    by_cases hlt : i < retries
    · have hrec := ih (i + 1) (by omega)
      simp only [fetchFrom, h i, hlt, if_pos, hrec]
      rw [Finset.sum_eq_sum_Ico_succ_bot hlt]
    · have : i = retries := by omega
      subst this
      simp [fetchFrom, h i, Finset.Ico_self]

/-- C4: when every attempt yields a rate-limit (429) signal, the retry
helper's total sleep time before giving up equals the sum of
backoff * 2 ^ i for i in [0, retries), and it returns the failure
indicator none to the caller instead of raising. -/
theorem c4_backoff_arithmetic (attempts : Nat → Attempt) (retries : Nat)
    (h : ∀ j, attempts j = .rateLimited) :
    fetch_json_with_retry attempts retries =
      (none, ∑ i in Finset.range retries, backoff * 2 ^ i) := by
  rw [fetch_json_with_retry,
    fetchFrom_all_rate_limited attempts retries h (retries + 1) 0 (by omega),
    Finset.range_eq_Ico]

/-- Witness for C4 at retries = 3: the helper sleeps 2 + 4 + 8 = 14
seconds in total and returns none. -/
theorem c4_backoff_arithmetic_witness :
    fetch_json_with_retry (fun _ => .rateLimited) 3 = (none, 14) := by
  rw [c4_backoff_arithmetic (fun _ => .rateLimited) 3 (fun _ => rfl)]
  decide

/-- The attempt sequence refuting C7: the first call to client.get
returns a non-429 HTTP error status (500), every later one would
succeed. -/
def c7attempts : Nat → Attempt := fun i => if i = 0 then .badStatus 500 else .success 7

/-- C7 is false of the code: on a non-429 HTTP status error the helper
returns the failure indicator immediately, with no sleep and no retry.
Had it slept the short fixed interval (1 s) and retried as the claim
states, the next attempt would have succeeded and the call would have
returned (some 7, 1); instead it returns (none, 0) although 3 retries
were allowed. -/
theorem c7_counterexample :
    fetch_json_with_retry c7attempts 3 = (none, 0) ∧
      fetch_json_with_retry c7attempts 3 ≠ (some 7, 1) := by
  decide

/-- C7 amended: only exceptions that are not httpx.HTTPStatusError (for
example network errors) are retried after the short fixed 1 s sleep; a
non-429 HTTP status error makes the helper return the failure indicator
none at once, without sleeping or retrying. -/
theorem c7_amended :
    (∀ (attempts : Nat → Attempt) (retries d : Nat),
      attempts 0 = .getExc → attempts 1 = .success d → 0 < retries →
        fetch_json_with_retry attempts retries = (some d, 1)) ∧
    (∀ (attempts : Nat → Attempt) (retries c : Nat),
      attempts 0 = .badStatus c →
        fetch_json_with_retry attempts retries = (none, 0)) := by
  constructor
  · intro attempts retries d h0 h1 hpos
    match retries, hpos with
    | r + 1, _ =>
      simp [fetch_json_with_retry, fetchFrom, h0, h1]
  · intro attempts retries c h0
    simp [fetch_json_with_retry, fetchFrom, h0]

/-- Witness for the amended C7: a transient non-HTTP exception on the
first attempt is retried after a 1 s sleep and the second attempt's
payload is returned. -/
theorem c7_amended_witness :
    fetch_json_with_retry (fun i => if i = 0 then .getExc else .success 7) 3 = (some 7, 1) :=
  c7_amended.1 (fun i => if i = 0 then .getExc else .success 7) 3 7 rfl rfl (by decide)

/-! ## The coordinator as a labelled transition system -/

/-- Worker status (enum WorkerStatus). -/
inductive WorkerStatus where
  | idle
  | working
  | failed
  | completed
  deriving DecidableEq, Repr

/-- Per-worker mutable record (dataclass WorkerState).  The event-loop
clock is a Nat.  reserved_batch is declared in the source but never
assigned anywhere, so it is omitted. -/
structure WorkerState where
  worker_id : Nat
  status : WorkerStatus
  current_item : Option WorkItem := none
  items_processed : Nat := 0
  items_failed : Nat := 0
  last_heartbeat : Nat := 0
  deriving DecidableEq, Repr

/-- A checkpoint file's content (save_checkpoint): the item is stored as
its asdict serialisation. -/
structure Checkpoint where
  worker_id : Nat
  timestamp : Nat
  current_item : List (String × JVal)
  items_processed : Nat
  deriving DecidableEq, Repr

/-- Association-list lookup for the Nat-keyed dicts of the coordinator
(self.workers, self.worker_tasks, checkpoint files, data files). -/
def lookupA {α : Type} : List (Nat × α) → Nat → Option α
  | [], _ => none
  | (k', v) :: rest, k => if k' = k then some v else lookupA rest k

/-- Association-list overwrite-or-add, modelling dict assignment and
overwrite-in-place file writes. -/
def insertA {α : Type} : List (Nat × α) → Nat → α → List (Nat × α)
  | [], k, v => [(k, v)]
  | (k', v') :: rest, k, v =>
    if k' = k then (k, v) :: rest else (k', v') :: insertA rest k v

@[simp]
theorem lookupA_insertA_self {α : Type} (l : List (Nat × α)) (k : Nat) (v : α) :
    lookupA (insertA l k v) k = some v := by
  induction l with
  | nil => simp [insertA, lookupA]
  | cons hd tl ih =>
    obtain ⟨k', v'⟩ := hd
    by_cases h : k' = k
    · simp [insertA, lookupA, h]
    · simp [insertA, lookupA, h, ih]

@[simp]
theorem lookupA_insertA_ne {α : Type} (l : List (Nat × α)) (k k' : Nat) (v : α)
    (h : k' ≠ k) : lookupA (insertA l k v) k' = lookupA l k' := by
  have hk : ¬ k = k' := fun hh => h hh.symm
  induction l with
  | nil => simp [insertA, lookupA, hk]
  | cons hd tl ih =>
    obtain ⟨k0, v0⟩ := hd
    by_cases h0 : k0 = k
    · subst h0
      simp [insertA, lookupA, hk]
    · simp [insertA, lookupA, h0, ih]

/-- Program counter of one worker_process task, one value per atomic
segment between awaits of the source coroutine. -/
inductive WPC where
  | start
  | recover
  | loopTop
  | awaiting
  | savingCp (item : WorkItem)
  | processing (item : WorkItem)
  | sleeping
  | finishing
  | done
  | dead
  deriving DecidableEq, Repr

/-- One entry of self.worker_tasks: the task's control point plus its
local accumulated results (worker_data["posts"]).  A processed item is
recorded by the item itself, since the post_data record is derived from
it by fetch_post_details. -/
structure WTask where
  pc : WPC
  posts : List WorkItem := []
  deriving DecidableEq, Repr

/-- How one call of fetch_post_details ends inside the worker loop:
returning a post record (truthy), returning None (its retry helper gave
up or the response shape was unusable), or letting an exception escape. -/
inductive FetchResult where
  | success
  | noData
  | exc
  deriving DecidableEq, Repr

/-- The whole coordinator state (class FaultTolerantCoordinator): the
bounded queue, the worker registry, the task handles, the checkpoint
directory, the per-worker data files, the two flags, the aggregate
counters and the event-loop clock. -/
structure Sys where
  work_queue : List WorkItem
  workers : List (Nat × WorkerState)
  tasks : List (Nat × WTask)
  checkpoints : List (Nat × Checkpoint)
  dataFiles : List (Nat × List WorkItem)
  is_collecting : Bool
  is_running : Bool
  total_items_collected : Nat
  total_items_processed : Nat
  total_items_failed : Nat
  now : Nat
  deriving DecidableEq, Repr

/-- self.heartbeat_timeout = 30.0 seconds. -/
def heartbeat_timeout : Nat := 30

/-- The queue bound (asyncio.Queue(maxsize=2000)). -/
def queue_maxsize : Nat := 2000

/-- The fresh WorkerState written into the registry at the top of
worker_process (lines 231-235). -/
def freshWorkerState (w : Nat) (now : Nat) : WorkerState :=
  { worker_id := w, status := .idle, current_item := none,
    items_processed := 0, items_failed := 0, last_heartbeat := now }

/-- load_checkpoint: read the checkpoint file for this worker id, if it
exists, and rebuild the snapshotted WorkItem; any failure yields None. -/
def load_checkpoint (cps : List (Nat × Checkpoint)) (w : Nat) : Option WorkItem :=
  match lookupA cps w with
  | none => none
  | some cp => workItemOfDict cp.current_item

/-- Deterministic segments of worker_process for worker w.  Each case is
the code of one atomic segment of the coroutine:
* start (lines 231-235): write a fresh WorkerState into the registry,
  then call load_checkpoint (the next await);
* recover (lines 238-248): if a checkpoint was read, re-queue its item;
  initialise worker_data with an empty posts list; enter the loop;
* loopTop (lines 251-261): if is_running is false leave the loop (the
  final save follows); otherwise refresh last_heartbeat and block on
  work_queue.get;
* savingCp (lines 271-272): the checkpoint write completes, snapshotting
  the item as asdict plus the registry's items_processed; the next await
  is the fetch itself, so the task moves to processing;
* sleeping: an asyncio.sleep finishes and control returns to the top of
  the loop;
* finishing (lines 312-314): the final save_worker_data writes the
  accumulated posts, then status becomes COMPLETED.
awaiting and processing advance through their own labelled actions;
done and dead tasks run no further. -/
def worker_seg_run (s : Sys) (w : Nat) : Option Sys :=
  match lookupA s.tasks w with
  | none => none
  | some t =>
    match t.pc with
    | .start =>
      some { s with
        workers := insertA s.workers w (freshWorkerState w s.now),
        tasks := insertA s.tasks w { t with pc := .recover } }
    | .recover =>
      match load_checkpoint s.checkpoints w with
      | some it =>
        some { s with
          work_queue := s.work_queue ++ [it],
          tasks := insertA s.tasks w { pc := .loopTop, posts := [] } }
      | none =>
        some { s with tasks := insertA s.tasks w { pc := .loopTop, posts := [] } }
    | .loopTop =>
      if s.is_running then
        match lookupA s.workers w with
        | some st =>
          some { s with
            workers := insertA s.workers w { st with last_heartbeat := s.now },
            tasks := insertA s.tasks w { t with pc := .awaiting } }
        | none => none
      else
        some { s with tasks := insertA s.tasks w { t with pc := .finishing } }
    | .savingCp it =>
      match lookupA s.workers w with
      | some st =>
        some { s with
          checkpoints := insertA s.checkpoints w
            { worker_id := w, timestamp := s.now, current_item := asdict it,
              items_processed := st.items_processed },
          tasks := insertA s.tasks w { t with pc := .processing it } }
      | none => none
    | .sleeping =>
      some { s with tasks := insertA s.tasks w { t with pc := .loopTop } }
    | .finishing =>
      match lookupA s.workers w with
      | some st =>
        some { s with
          dataFiles := insertA s.dataFiles w t.posts,
          workers := insertA s.workers w { st with status := .completed },
          tasks := insertA s.tasks w { t with pc := .done } }
      | none => none
    | _ => none

/-- work_queue.get delivers the queue head to worker w (lines 258-272):
the worker sets status to WORKING and current_item to the item, then
calls save_checkpoint (whose file write is the next await). -/
def worker_seg_deq (s : Sys) (w : Nat) : Option Sys :=
  match lookupA s.tasks w with
  | none => none
  | some t =>
    match t.pc with
    | .awaiting =>
      match s.work_queue, lookupA s.workers w with
      | it :: rest, some st =>
        some { s with
          work_queue := rest,
          workers := insertA s.workers w
            { st with status := .working, current_item := some it },
          tasks := insertA s.tasks w { t with pc := .savingCp it } }
      | _, _ => none
    | _ => none

/-- asyncio.wait_for times out for worker w (lines 262-265), which
happens only while the queue is empty: if collection is finished and the
queue is empty the loop is left (break, then final save), otherwise the
loop continues. -/
def worker_seg_get_timeout (s : Sys) (w : Nat) : Option Sys :=
  match lookupA s.tasks w with
  | none => none
  | some t =>
    match t.pc with
    | .awaiting =>
      if s.work_queue = [] then
        if s.is_collecting then
          some { s with tasks := insertA s.tasks w { t with pc := .loopTop } }
        else
          some { s with tasks := insertA s.tasks w { t with pc := .finishing } }
      else none
    | _ => none

/-- fetch_post_details returns to worker w (lines 275-302):
* a truthy post record: append it to worker_data["posts"], increment the
  per-worker and aggregate processed counters, rewrite the data file
  when the post count reaches a multiple of 5, then clear current_item,
  set status IDLE and sleep 1 s;
* None: nothing in the try body runs, so the item is neither recorded
  nor re-queued; current_item is cleared, status set to IDLE, sleep 1 s;
* an exception: increment the per-worker and aggregate failed counters,
  put the item back on the queue and sleep 2 s — current_item and status
  are left as they were. -/
def worker_seg_fetch (s : Sys) (w : Nat) (r : FetchResult) : Option Sys :=
  match lookupA s.tasks w with
  | none => none
  | some t =>
    match t.pc with
    | .processing it =>
      match lookupA s.workers w with
      | none => none
      | some st =>
        match r with
        | .success =>
          let posts := t.posts ++ [it]
          some { s with
            workers := insertA s.workers w
              { st with items_processed := st.items_processed + 1,
                        current_item := none, status := .idle },
            total_items_processed := s.total_items_processed + 1,
            dataFiles := if posts.length % 5 = 0
              then insertA s.dataFiles w posts else s.dataFiles,
            tasks := insertA s.tasks w { pc := .sleeping, posts := posts } }
        | .noData =>
          some { s with
            workers := insertA s.workers w
              { st with current_item := none, status := .idle },
            tasks := insertA s.tasks w { t with pc := .sleeping } }
        | .exc =>
          some { s with
            workers := insertA s.workers w
              { st with items_failed := st.items_failed + 1 },
            total_items_failed := s.total_items_failed + 1,
            work_queue := s.work_queue ++ [it],
            tasks := insertA s.tasks w { t with pc := .sleeping } }
    | _ => none

/-- An unexpected exception escapes the loop body outside the inner
try (lines 307-310), for instance from the checkpoint write: the worker
marks itself FAILED, sleeps 5 s and loops again; the task survives. -/
def worker_seg_unexpected (s : Sys) (w : Nat) : Option Sys :=
  match lookupA s.tasks w with
  | none => none
  | some t =>
    match t.pc with
    | .savingCp _ =>
      match lookupA s.workers w with
      | some st =>
        some { s with
          workers := insertA s.workers w { st with status := .failed },
          tasks := insertA s.tasks w { t with pc := .sleeping } }
      | none => none
    | _ => none

/-- Task.cancel on worker w: asyncio.CancelledError is raised at the
task's current await; worker_process logs and re-raises it (lines
304-306), so the coroutine terminates at once — without reaching the
final save. -/
def cancel_task (s : Sys) (w : Nat) : Option Sys :=
  match lookupA s.tasks w with
  | none => none
  | some t =>
    match t.pc with
    | .done => none
    | .dead => none
    | _ => some { s with tasks := insertA s.tasks w { t with pc := .dead } }

/-- One timeout detection of monitor_workers for worker w (lines
400-421): if the registry entry is WORKING and its heartbeat is older
than heartbeat_timeout, cancel the task, re-queue current_item when it
is set, reset the entry to IDLE with no current_item, and replace the
task handle with a freshly spawned worker_process for the same id. -/
def monitor_restart (s : Sys) (w : Nat) : Option Sys :=
  match lookupA s.workers w with
  | none => none
  | some st =>
    if s.is_running = true ∧ st.status = .working ∧
        heartbeat_timeout < s.now - st.last_heartbeat then
      some { s with
        work_queue := match st.current_item with
          | some it => s.work_queue ++ [it]
          | none => s.work_queue,
        workers := insertA s.workers w { st with status := .idle, current_item := none },
        tasks := insertA s.tasks w { pc := .start, posts := [] } }
    else none

/-- collect_post_lists puts one freshly built WorkItem on the queue
(lines 191-206) and counts it; the put suspends at the 2000-item bound,
so it completes only below capacity. -/
def collector_put (s : Sys) (it : WorkItem) : Option Sys :=
  if s.is_collecting = true ∧ s.is_running = true ∧
      s.work_queue.length < queue_maxsize then
    some { s with
      work_queue := s.work_queue ++ [it],
      total_items_collected := s.total_items_collected + 1 }
  else none

/-- Labels of the transition system: which task moves next, and for the
two nondeterministic worker awaits, how the await resolved. -/
inductive Act where
  | taskRun (w : Nat)
  | deq (w : Nat)
  | getTimeout (w : Nat)
  | fetchDone (w : Nat) (r : FetchResult)
  | unexpectedErr (w : Nat)
  | cancel (w : Nat)
  | monitorRestart (w : Nat)
  | collectPut (it : WorkItem)
  | collectFinish
  | stopFlag
  | tick (dt : Nat)
  deriving DecidableEq, Repr

/-- One transition; none means the action is not enabled in s. -/
def step (s : Sys) : Act → Option Sys
  | .taskRun w => worker_seg_run s w
  | .deq w => worker_seg_deq s w
  | .getTimeout w => worker_seg_get_timeout s w
  | .fetchDone w r => worker_seg_fetch s w r
  | .unexpectedErr w => worker_seg_unexpected s w
  | .cancel w => cancel_task s w
  | .monitorRestart w => monitor_restart s w
  | .collectPut it => collector_put s it
  | .collectFinish => some { s with is_collecting := false }
  | .stopFlag => some { s with is_running := false }
  | .tick dt => some { s with now := s.now + dt }

/-- Run a list of actions from a state. -/
def run : Sys → List Act → Option Sys
  | s, [] => some s
  | s, a :: acts =>
    match step s a with
    | some s' => run s' acts
    | none => none

/-- The state right after FaultTolerantCoordinator.run() has spawned the
collector, the n worker tasks and the monitor: empty queue, empty
registry, all tasks at their first segment, both flags set, counters at
zero.  The checkpoint directory may hold files left over from an earlier
run, so it is a parameter. -/
def initSysWithCps (n : Nat) (cps : List (Nat × Checkpoint)) : Sys :=
  { work_queue := [], workers := [],
    tasks := (List.range n).map (fun i => (i, { pc := .start, posts := [] })),
    checkpoints := cps, dataFiles := [],
    is_collecting := true, is_running := true,
    total_items_collected := 0, total_items_processed := 0, total_items_failed := 0,
    now := 0 }

/-- Fresh start with an empty checkpoint directory. -/
def initSys (n : Nat) : Sys := initSysWithCps n []

/-- A state the coordinator can actually be in: reached by some action
sequence from a start state (with any leftover checkpoint files). -/
def Reachable (s : Sys) : Prop :=
  ∃ n cps acts, run (initSysWithCps n cps) acts = some s

/-! ## Concrete states used by counterexamples and witnesses -/

/-- A sample work item. -/
def cexItem : WorkItem :=
  { post_id := "a", permalink := "p", created_utc := 0, num_comments := 0,
    batch_id := 0, item_index := 0 }

/-- Worker 0's registry entry while it is processing cexItem. -/
def procSt : WorkerState :=
  { worker_id := 0, status := .working, current_item := some cexItem,
    items_processed := 0, items_failed := 0, last_heartbeat := 0 }

/-- The checkpoint written for cexItem. -/
def procCp : Checkpoint :=
  { worker_id := 0, timestamp := 0, current_item := asdict cexItem, items_processed := 0 }

/-- The trace that brings a one-worker coordinator to the point where
worker 0 is fetching cexItem: the worker starts, finds no checkpoint,
the collector enqueues the item, the worker dequeues it and the
checkpoint write completes. -/
def procActs : List Act :=
  [.taskRun 0, .taskRun 0, .collectPut cexItem, .taskRun 0, .deq 0, .taskRun 0]

/-- The state procActs reaches: worker 0 holds cexItem, is WORKING, the
checkpoint for it is on disk, and the fetch is in flight. -/
def procSys : Sys :=
  { work_queue := [], workers := [(0, procSt)],
    tasks := [(0, { pc := .processing cexItem, posts := [] })],
    checkpoints := [(0, procCp)], dataFiles := [],
    is_collecting := true, is_running := true,
    total_items_collected := 1, total_items_processed := 0, total_items_failed := 0,
    now := 0 }

/-- A worker that has stopped heartbeating while working on cexItem,
with nonzero per-worker counters, at clock 31 (timeout exceeded). -/
def stuckSt : WorkerState :=
  { worker_id := 0, status := .working, current_item := some cexItem,
    items_processed := 2, items_failed := 1, last_heartbeat := 0 }

/-- A coordinator state in which worker 0 is stuck past the heartbeat
threshold, its checkpoint for cexItem still on disk. -/
def stuckSys : Sys :=
  { work_queue := [], workers := [(0, stuckSt)],
    tasks := [(0, { pc := .processing cexItem, posts := [] })],
    checkpoints := [(0, procCp)], dataFiles := [],
    is_collecting := true, is_running := true,
    total_items_collected := 1, total_items_processed := 0, total_items_failed := 0,
    now := 31 }

/-! ## C1: disposition of every dequeued item -/

/-- C1 is false of the code: a run of a one-worker coordinator in which
fetch_post_details returns None (its own retries exhausted) ends the
loop body with the dequeued item nowhere — the queue is empty, the
worker's output list is empty, items_processed is 0, no failure was
counted and current_item was cleared.  The item was dequeued yet is
neither recorded nor re-enqueued, because the None return takes neither
the success branch nor the except branch of lines 274-299. -/
theorem c1_counterexample :
    (run (initSys 1) (procActs ++ [.fetchDone 0 .noData])).map
      (fun s => (s.work_queue, (lookupA s.tasks 0).map WTask.posts,
        (lookupA s.workers 0).map WorkerState.items_processed,
        (lookupA s.workers 0).map WorkerState.current_item,
        s.total_items_failed))
    = some ([], some [], some 0, some none, 0) := by
  rfl

/-- C1 amended: the loop body has three outcomes for a dequeued item,
not two.  If fetch_post_details returns a record, the item is appended
to the worker's output and items_processed incremented; if it raises,
the failure counters are incremented and the item goes back on the
queue; but if it returns None, the item is silently dropped — output,
queue and all counters are unchanged and only current_item/status are
reset. -/
theorem c1_amended (s : Sys) (w : Nat) (ps : List WorkItem) (it : WorkItem)
    (st : WorkerState)
    (ht : lookupA s.tasks w = some { pc := .processing it, posts := ps })
    (hst : lookupA s.workers w = some st) :
    worker_seg_fetch s w .success = some { s with
      workers := insertA s.workers w
        { st with items_processed := st.items_processed + 1,
                  current_item := none, status := .idle },
      total_items_processed := s.total_items_processed + 1,
      dataFiles := if (ps ++ [it]).length % 5 = 0
        then insertA s.dataFiles w (ps ++ [it]) else s.dataFiles,
      tasks := insertA s.tasks w { pc := .sleeping, posts := ps ++ [it] } } ∧
    worker_seg_fetch s w .exc = some { s with
      workers := insertA s.workers w { st with items_failed := st.items_failed + 1 },
      total_items_failed := s.total_items_failed + 1,
      work_queue := s.work_queue ++ [it],
      tasks := insertA s.tasks w { pc := .sleeping, posts := ps } } ∧
    worker_seg_fetch s w .noData = some { s with
      workers := insertA s.workers w { st with current_item := none, status := .idle },
      tasks := insertA s.tasks w { pc := .sleeping, posts := ps } } := by
  refine ⟨?_, ?_, ?_⟩ <;> simp [worker_seg_fetch, ht, hst]

/-- Witness for the amended C1: the dropping outcome, evaluated at the
concrete in-flight state procSys. -/
theorem c1_amended_witness :
    worker_seg_fetch procSys 0 .noData = some { procSys with
      workers := insertA procSys.workers 0
        { procSt with current_item := none, status := .idle },
      tasks := insertA procSys.tasks 0 { pc := .sleeping, posts := [] } } :=
  (c1_amended procSys 0 [] cexItem procSt rfl rfl).2.2

/-! ## C2: exclusive ownership of an in-flight item -/

/-- C2 is false of the code: after worker 0 dequeues cexItem, fails on
it and re-enqueues it, worker 0's current_item still holds the item
(lines 287-295 never clear it), so when worker 1 dequeues the re-queued
copy both WorkerStates hold cexItem as current_item at the same
instant. -/
theorem c2_counterexample :
    (run (initSys 2) [.taskRun 0, .taskRun 0, .taskRun 1, .taskRun 1,
        .collectPut cexItem, .taskRun 0, .deq 0, .taskRun 0, .fetchDone 0 .exc,
        .taskRun 1, .deq 1]).map
      (fun s => ((lookupA s.workers 0).map WorkerState.current_item,
                 (lookupA s.workers 1).map WorkerState.current_item))
    = some (some (some cexItem), some (some cexItem)) := by
  rfl

/-- C2 amended: after the failure branch re-enqueues an item, that item
is simultaneously back on the queue and still recorded as the failing
worker's current_item (it is only overwritten at the next dequeue), so
a second worker that dequeues it makes two WorkerStates hold the same
WorkItem at the same instant. -/
theorem c2_amended (s : Sys) (w : Nat) (ps : List WorkItem) (it : WorkItem)
    (st : WorkerState)
    (ht : lookupA s.tasks w = some { pc := .processing it, posts := ps })
    (hst : lookupA s.workers w = some st)
    (hcur : st.current_item = some it) :
    ∃ s', worker_seg_fetch s w .exc = some s' ∧
      (lookupA s'.workers w).map WorkerState.current_item = some (some it) ∧
      s'.work_queue = s.work_queue ++ [it] := by
  refine ⟨{ s with
    workers := insertA s.workers w { st with items_failed := st.items_failed + 1 },
    total_items_failed := s.total_items_failed + 1,
    work_queue := s.work_queue ++ [it],
    tasks := insertA s.tasks w { pc := .sleeping, posts := ps } }, ?_, ?_, rfl⟩
  · simp [worker_seg_fetch, ht, hst]
  · simp [hcur]

/-- Witness for the amended C2 at the concrete in-flight state. -/
theorem c2_amended_witness :
    ∃ s', worker_seg_fetch procSys 0 .exc = some s' ∧
      (lookupA s'.workers 0).map WorkerState.current_item = some (some cexItem) ∧
      s'.work_queue = procSys.work_queue ++ [cexItem] :=
  c2_amended procSys 0 [] cexItem procSt rfl rfl rfl

/-! ## C3: the monitor's timeout handling -/

/-- C3: when the monitor finds a WORKING worker whose heartbeat age
exceeds the threshold, it cancels and replaces that worker's task with
a freshly spawned one for the same id, enqueues the current item
exactly once when one is set (and touches the queue not at all when
none is), and resets the WorkerState to IDLE with no current_item; the
checkpoint files are untouched. -/
theorem c3_monitor_restart (s : Sys) (w : Nat) (st : WorkerState)
    (hst : lookupA s.workers w = some st)
    (hrun : s.is_running = true)
    (hwork : st.status = .working)
    (hto : heartbeat_timeout < s.now - st.last_heartbeat) :
    ∃ s', monitor_restart s w = some s' ∧
      (∀ it, st.current_item = some it → s'.work_queue = s.work_queue ++ [it]) ∧
      (st.current_item = none → s'.work_queue = s.work_queue) ∧
      lookupA s'.workers w = some { st with status := .idle, current_item := none } ∧
      lookupA s'.tasks w = some { pc := .start, posts := [] } ∧
      s'.checkpoints = s.checkpoints := by
  refine ⟨{ s with
    work_queue := match st.current_item with
      | some it => s.work_queue ++ [it]
      | none => s.work_queue,
    workers := insertA s.workers w { st with status := .idle, current_item := none },
    tasks := insertA s.tasks w { pc := .start, posts := [] } }, ?_, ?_, ?_, ?_, ?_, rfl⟩
  · simp [monitor_restart, hst, hrun, hwork, hto]
  · intro it hit
    simp [hit]
  · intro hnone
    simp [hnone]
  · simp
  · simp

/-- Witness for C3 at the concrete stuck state (clock 31, heartbeat 0,
current item cexItem). -/
theorem c3_monitor_restart_witness :
    ∃ s', monitor_restart stuckSys 0 = some s' ∧
      (∀ it, stuckSt.current_item = some it →
        s'.work_queue = stuckSys.work_queue ++ [it]) ∧
      (stuckSt.current_item = none → s'.work_queue = stuckSys.work_queue) ∧
      lookupA s'.workers 0 = some { stuckSt with status := .idle, current_item := none } ∧
      lookupA s'.tasks 0 = some { pc := .start, posts := [] } ∧
      s'.checkpoints = stuckSys.checkpoints :=
  c3_monitor_restart stuckSys 0 stuckSt rfl rfl rfl (by decide)

/-! ## C5: checkpoint recovery at worker startup -/

/-- C5: at startup (the recovery segment after the registry write), if a
checkpoint record whose snapshot serialises WorkItem it0 exists for this
worker id, the worker re-enqueues exactly it0 before entering its
processing loop — WorkItem(**item_data) rebuilds the snapshotted item
field for field, hence with the same post_id; if no checkpoint exists,
the queue is unchanged by recovery. -/
theorem c5_checkpoint_recovery (s : Sys) (w : Nat) (ps : List WorkItem)
    (ht : lookupA s.tasks w = some { pc := .recover, posts := ps }) :
    (∀ cp it0, lookupA s.checkpoints w = some cp → cp.current_item = asdict it0 →
      worker_seg_run s w = some { s with
        work_queue := s.work_queue ++ [it0],
        tasks := insertA s.tasks w { pc := .loopTop, posts := [] } }) ∧
    (lookupA s.checkpoints w = none →
      worker_seg_run s w = some { s with
        tasks := insertA s.tasks w { pc := .loopTop, posts := [] } }) := by
  constructor
  · intro cp it0 hcp hsnap
    simp [worker_seg_run, ht, load_checkpoint, hcp, hsnap, workItemOfDict_asdict]
  · intro hnone
    simp [worker_seg_run, ht, load_checkpoint, hnone]

/-- A worker about to run its recovery segment, with procCp on disk. -/
def recSys : Sys :=
  { work_queue := [], workers := [(0, freshWorkerState 0 0)],
    tasks := [(0, { pc := .recover, posts := [] })],
    checkpoints := [(0, procCp)], dataFiles := [],
    is_collecting := true, is_running := true,
    total_items_collected := 0, total_items_processed := 0, total_items_failed := 0,
    now := 0 }

/-- Witness for C5: recovering from the checkpoint of cexItem enqueues
exactly cexItem. -/
theorem c5_checkpoint_recovery_witness :
    worker_seg_run recSys 0 = some { recSys with
      work_queue := recSys.work_queue ++ [cexItem],
      tasks := insertA recSys.tasks 0 { pc := .loopTop, posts := [] } } :=
  (c5_checkpoint_recovery recSys 0 [] rfl).1 procCp cexItem rfl rfl

/-! ## C6: the checkpoint write precedes the detail fetch -/

/-- Relative to a task table and a checkpoint directory: every task
whose detail fetch is in flight for an item already has that item's
checkpoint on disk under its own worker id. -/
def CBP2 (tasks : List (Nat × WTask)) (cps : List (Nat × Checkpoint)) : Prop :=
  ∀ w ps it, lookupA tasks w = some { pc := .processing it, posts := ps } →
    ∃ cp, lookupA cps w = some cp ∧ cp.current_item = asdict it ∧ cp.worker_id = w

/-- The invariant, read off a coordinator state. -/
def CheckpointBeforeProcessing (s : Sys) : Prop := CBP2 s.tasks s.checkpoints

/-- Replacing a task with one that is not in the processing segment
preserves the invariant. -/
theorem cbp2_insert_task (tasks : List (Nat × WTask)) (cps : List (Nat × Checkpoint))
    (w : Nat) (t' : WTask) (h : CBP2 tasks cps)
    (hnp : ∀ it, t'.pc ≠ .processing it) :
    CBP2 (insertA tasks w t') cps := by
  intro w' ps it h'
  by_cases hw : w' = w
  · subst hw
    rw [lookupA_insertA_self] at h'
    exact absurd (congrArg WTask.pc (Option.some.inj h')) (hnp it)
  · rw [lookupA_insertA_ne _ _ _ _ hw] at h'
    exact h _ _ _ h'

/-- Moving a task into the processing segment together with writing its
item's checkpoint (what the savingCp segment does) preserves the
invariant. -/
theorem cbp2_insert_both (tasks : List (Nat × WTask)) (cps : List (Nat × Checkpoint))
    (w : Nat) (it : WorkItem) (ps : List WorkItem) (ts np : Nat) (h : CBP2 tasks cps) :
    CBP2 (insertA tasks w { pc := .processing it, posts := ps })
      (insertA cps w { worker_id := w, timestamp := ts,
                       current_item := asdict it, items_processed := np }) := by
  intro w' ps' it' h'
  by_cases hw : w' = w
  · subst hw
    rw [lookupA_insertA_self] at h'
    have hmk := Option.some.inj h'
    have hit : it = it' := by
      have hpc := congrArg WTask.pc hmk
      simpa using hpc
    subst hit
    exact ⟨_, lookupA_insertA_self _ _ _, rfl, rfl⟩
  · rw [lookupA_insertA_ne _ _ _ _ hw] at h'
    rw [lookupA_insertA_ne _ _ _ _ hw]
    exact h _ _ _ h'

/-- Every transition preserves the invariant: the only step that moves a
task into the processing segment is the completion of its checkpoint
write, which installs exactly that item's snapshot, and no step ever
deletes a checkpoint. -/
theorem step_preserves_cbp (s s' : Sys) (a : Act) (h : step s a = some s')
    (hinv : CheckpointBeforeProcessing s) : CheckpointBeforeProcessing s' := by
  cases a with
  | taskRun w =>
    simp only [step] at h
    unfold worker_seg_run at h
    repeat' split at h
    all_goals first
      | (injection h with h; subst h;
         first
           | exact hinv
           | exact cbp2_insert_both _ _ _ _ _ _ _ hinv
           | exact cbp2_insert_task _ _ _ _ hinv (by intro it2 hx; simp at hx))
      | simp at h
  | deq w =>
    simp only [step] at h
    unfold worker_seg_deq at h
    repeat' split at h
    all_goals first
      | (injection h with h; subst h;
         first
           | exact hinv
           | exact cbp2_insert_task _ _ _ _ hinv (by intro it2 hx; simp at hx))
      | simp at h
  | getTimeout w =>
    simp only [step] at h
    unfold worker_seg_get_timeout at h
    repeat' split at h
    all_goals first
      | (injection h with h; subst h;
         first
           | exact hinv
           | exact cbp2_insert_task _ _ _ _ hinv (by intro it2 hx; simp at hx))
      | simp at h
  | fetchDone w r =>
    simp only [step] at h
    unfold worker_seg_fetch at h
    repeat' split at h
    all_goals first
      | (injection h with h; subst h;
         first
           | exact hinv
           | exact cbp2_insert_task _ _ _ _ hinv (by intro it2 hx; simp at hx))
      | simp at h
  | unexpectedErr w =>
    simp only [step] at h
    unfold worker_seg_unexpected at h
    repeat' split at h
    all_goals first
      | (injection h with h; subst h;
         first
           | exact hinv
           | exact cbp2_insert_task _ _ _ _ hinv (by intro it2 hx; simp at hx))
      | simp at h
  | cancel w =>
    simp only [step] at h
    unfold cancel_task at h
    repeat' split at h
    all_goals first
      | (injection h with h; subst h;
         first
           | exact hinv
           | exact cbp2_insert_task _ _ _ _ hinv (by intro it2 hx; simp at hx))
      | simp at h
  | monitorRestart w =>
    simp only [step] at h
    unfold monitor_restart at h
    repeat' split at h
    all_goals first
      | (injection h with h; subst h;
         first
           | exact hinv
           | exact cbp2_insert_task _ _ _ _ hinv (by intro it2 hx; simp at hx))
      | simp at h
  | collectPut it =>
    simp only [step] at h
    unfold collector_put at h
    repeat' split at h
    all_goals first
      | (injection h with h; subst h; exact hinv)
      | simp at h
  | collectFinish =>
    simp only [step] at h
    injection h with h
    subst h
    exact hinv
  | stopFlag =>
    simp only [step] at h
    injection h with h
    subst h
    exact hinv
  | tick dt =>
    simp only [step] at h
    injection h with h
    subst h
    exact hinv

/-- Looking a key up in a constant-valued association list only ever
returns that constant. -/
theorem lookupA_const_map {α : Type} (l : List Nat) (c : α) (w : Nat) (t : α)
    (h : lookupA (l.map (fun i => (i, c))) w = some t) : t = c := by
  induction l with
  | nil => simp [lookupA] at h
  | cons hd tl ih =>
    simp only [List.map, lookupA] at h
    by_cases hw : hd = w
    · rw [if_pos hw] at h
      exact (Option.some.inj h).symm
    · rw [if_neg hw] at h
      exact ih h

/-- A start state satisfies the invariant vacuously: every task is at
its first segment, none is processing. -/
theorem cbp_init (n : Nat) (cps : List (Nat × Checkpoint)) :
    CheckpointBeforeProcessing (initSysWithCps n cps) := by
  intro w ps it h
  have hc := lookupA_const_map _ _ _ _ h
  simp [WTask.mk.injEq] at hc

/-- The invariant propagates along any action sequence. -/
theorem run_preserves_cbp (acts : List Act) :
    ∀ s0 s : Sys, run s0 acts = some s →
      CheckpointBeforeProcessing s0 → CheckpointBeforeProcessing s := by
  induction acts with
  | nil =>
    intro s0 s h h0
    simp only [run] at h
    exact (Option.some.inj h) ▸ h0
  | cons a rest ih =>
    intro s0 s h h0
    simp only [run] at h
    cases hs : step s0 a with
    | none => rw [hs] at h; simp at h
    | some s1 =>
      rw [hs] at h
      exact ih s1 s h (step_preserves_cbp s0 s1 a hs h0)

/-- C6: in every reachable coordinator state, any worker whose detail
fetch is in flight for an item already has that item's checkpoint
(listing its own worker id) written: the checkpoint write of the loop
body completes before the externally visible fetch begins, on every
path and after any interleaving with the monitor and other workers. -/
theorem c6_checkpoint_before_fetch (s : Sys) (h : Reachable s) :
    CheckpointBeforeProcessing s := by
  obtain ⟨n, cps, acts, hr⟩ := h
  exact run_preserves_cbp acts _ s hr (cbp_init n cps)

/-- Witness for C6 at the concrete reachable state procSys, reached by
the explicit trace procActs. -/
theorem c6_checkpoint_before_fetch_witness : CheckpointBeforeProcessing procSys :=
  c6_checkpoint_before_fetch procSys ⟨1, [], procActs, by rfl⟩

/-! ## C8: the final save on worker exit -/

/-- C8 is false of the code: a worker that has successfully processed
cexItem (held in its in-memory worker_data, not yet persisted since the
periodic save fires only every 5 posts) and is then forcibly cancelled
terminates at once — worker_process re-raises CancelledError past the
final save — so no data file for it is ever written.  The run below
ends with the task dead, its accumulated results [cexItem] unsaved. -/
theorem c8_counterexample :
    (run (initSys 1) (procActs ++ [.fetchDone 0 .success, .taskRun 0, .taskRun 0,
        .cancel 0])).map
      (fun s => ((lookupA s.tasks 0).map WTask.pc, (lookupA s.tasks 0).map WTask.posts,
        lookupA s.dataFiles 0))
    = some (some .dead, some [cexItem], none) := by
  rfl

/-- C8 amended: the final save runs on the exits that leave the loop
normally — queue drained after collection finished, and cooperative
stop via the running flag, both of which reach the finishing segment,
where the worker's accumulated results are written and its status set
to COMPLETED — but a forced cancellation terminates the task without
the final save: the data files are untouched and the task just dies. -/
theorem c8_amended (s : Sys) (w : Nat) (t : WTask) (st : WorkerState)
    (ht : lookupA s.tasks w = some t)
    (hst : lookupA s.workers w = some st) :
    (t.pc = .finishing →
      worker_seg_run s w = some { s with
        dataFiles := insertA s.dataFiles w t.posts,
        workers := insertA s.workers w { st with status := .completed },
        tasks := insertA s.tasks w { t with pc := .done } }) ∧
    (∀ s', cancel_task s w = some s' →
      s'.dataFiles = s.dataFiles ∧
      (lookupA s'.tasks w).map WTask.pc = some .dead) := by
  constructor
  · intro hpc
    simp [worker_seg_run, ht, hpc, hst]
  · intro s' h
    unfold cancel_task at h
    repeat' split at h
    all_goals first
      | (injection h with h; subst h; exact ⟨rfl, by simp⟩)
      | (subst h; exact ⟨rfl, by simp⟩)
      | simp at h

/-- A worker about to run its final-save segment, carrying one
accumulated result. -/
def finSt : WorkerState :=
  { worker_id := 0, status := .idle, current_item := none,
    items_processed := 1, items_failed := 0, last_heartbeat := 5 }

/-- The coordinator state for the C8 witness. -/
def finSys : Sys :=
  { work_queue := [], workers := [(0, finSt)],
    tasks := [(0, { pc := .finishing, posts := [cexItem] })],
    checkpoints := [(0, procCp)], dataFiles := [],
    is_collecting := false, is_running := true,
    total_items_collected := 1, total_items_processed := 1, total_items_failed := 0,
    now := 9 }

/-- Witness for the amended C8: the finishing segment writes the data
file and completes the worker. -/
theorem c8_amended_witness :
    worker_seg_run finSys 0 = some { finSys with
      dataFiles := insertA finSys.dataFiles 0 [cexItem],
      workers := insertA finSys.workers 0 { finSt with status := .completed },
      tasks := insertA finSys.tasks 0 { pc := .done, posts := [cexItem] } } :=
  (c8_amended finSys 0 { pc := .finishing, posts := [cexItem] } finSt rfl rfl).1 rfl

/-! ## C9: the monitor restart re-enqueues a stuck item twice -/

/-- C9: when the monitor restarts a timed-out worker whose current_item
equals the item snapshotted in that worker's checkpoint, the item ends
up on the queue twice — once from the monitor's re-enqueue and once
more from the replacement worker's checkpoint recovery at its startup —
after which the two copies can be dequeued and processed by two
different workers (the dequeue action is available to any awaiting
worker for each copy). -/
theorem c9_double_enqueue (s : Sys) (w : Nat) (st : WorkerState) (it : WorkItem)
    (cp : Checkpoint)
    (hst : lookupA s.workers w = some st)
    (hrun : s.is_running = true)
    (hwork : st.status = .working)
    (hto : heartbeat_timeout < s.now - st.last_heartbeat)
    (hcur : st.current_item = some it)
    (hcp : lookupA s.checkpoints w = some cp)
    (hsnap : cp.current_item = asdict it) :
    (run s [.monitorRestart w, .taskRun w, .taskRun w]).map Sys.work_queue
      = some (s.work_queue ++ [it] ++ [it]) := by
  simp [run, step, monitor_restart, worker_seg_run, load_checkpoint,
    hst, hrun, hwork, hto, hcur, hcp, hsnap, workItemOfDict_asdict]

/-- Witness for C9 at the concrete stuck state: cexItem is queued twice
after the restart and the replacement's recovery. -/
theorem c9_double_enqueue_witness :
    (run stuckSys [.monitorRestart 0, .taskRun 0, .taskRun 0]).map Sys.work_queue
      = some (stuckSys.work_queue ++ [cexItem] ++ [cexItem]) :=
  c9_double_enqueue stuckSys 0 stuckSt cexItem procCp rfl rfl rfl (by decide) rfl rfl rfl

/-! ## C10: a restart resets per-worker counts, not the aggregates -/

/-- C10: a monitor restart followed by the replacement task's first
segment installs a freshly initialised WorkerState for that id — status
IDLE, no current_item, items_processed and items_failed both 0, the
heartbeat set to the current clock — discarding the previous per-worker
counts, while the coordinator's three aggregate counters are unchanged
by the restart itself. -/
theorem c10_restart_resets_counts (s : Sys) (w : Nat) (st : WorkerState)
    (hst : lookupA s.workers w = some st)
    (hrun : s.is_running = true)
    (hwork : st.status = .working)
    (hto : heartbeat_timeout < s.now - st.last_heartbeat) :
    (run s [.monitorRestart w, .taskRun w]).map
      (fun x => (lookupA x.workers w, x.total_items_processed,
        x.total_items_failed, x.total_items_collected))
      = some (some (freshWorkerState w s.now), s.total_items_processed,
          s.total_items_failed, s.total_items_collected) := by
  simp [run, step, monitor_restart, worker_seg_run, hst, hrun, hwork, hto]

/-- Witness for C10 at the concrete stuck state, whose WorkerState had
items_processed = 2 and items_failed = 1 before the restart. -/
theorem c10_restart_resets_counts_witness :
    (run stuckSys [.monitorRestart 0, .taskRun 0]).map
      (fun x => (lookupA x.workers 0, x.total_items_processed,
        x.total_items_failed, x.total_items_collected))
      = some (some (freshWorkerState 0 stuckSys.now), stuckSys.total_items_processed,
          stuckSys.total_items_failed, stuckSys.total_items_collected) :=
  c10_restart_resets_counts stuckSys 0 stuckSt rfl rfl rfl (by decide)

end FaultTolerant
